import Mathlib

/-!
Verification of `tiny_dnn/layers/fully_connected_layer.h`.

The header defines `fully_connected_layer`, a dense layer that owns a shape
descriptor (`fully_params`), registers weight/bias parameters with the `layer`
base, selects forward/backward kernels at construction (`init_backend`), and
rebinds per-direction `OpKernelContext`s on every `forward_propagation` /
`back_propagation` call before invoking the selected kernel.

Collaborators that are declared elsewhere in the repository (the `layer` base
class, `OpKernelContext`, the `FullyConnectedOp` / `FullyConnectedGradOp`
kernels, the `backend_t` enumeration) are modelled from the spec; every such
definition carries a doc comment saying so.  Scalars are modelled as `Int` (exact arithmetic).
Fallible construction is modelled with `Except`: C++ constructor-throw means
no object results, which `Except.error` captures.
-/

namespace TinyDnn

/-- Modelled from the spec: the backend enumeration is owned externally and
passed in at construction ("A Backend enumeration owned externally").  The
header names `internal`, `avx` and `nnpack` as the supported values; the
enumeration also contains further engines (`libdnn`, `opencl`) that fall into
the rejected branch of `init_backend`. -/
inductive backend_t
  | internal
  | nnpack
  | libdnn
  | avx
  | opencl
deriving DecidableEq

/-- Modelled from the spec: `to_string(backend_type)` renders the offending
backend identifier for the construction-time error message. -/
def to_string : backend_t → String
  | backend_t.internal => "Internal"
  | backend_t.nnpack => "NNPACK"
  | backend_t.libdnn => "LibDNN"
  | backend_t.avx => "AVX"
  | backend_t.opencl => "OpenCL"

/-- Modelled from the spec: `core::default_engine()` is the externally owned
default backend selection policy; the portable default engine. -/
def core.default_engine : backend_t := backend_t.internal

/-- Modelled from the spec: `nn_error` is the error raised at construction
time, carrying a message naming the offending backend. -/
structure nn_error where
  msg : String
deriving DecidableEq

/-- Modelled from the spec: role tags of `vector_type` entries in a layer's
input/output order. -/
inductive vector_type
  | data
  | weight
  | bias
deriving DecidableEq

/-- Modelled from the spec: `std_input_order(has_bias)` is the legacy input
order that lists weight (and bias, when present) among the layer inputs. -/
def std_input_order (has_bias : Bool) : List vector_type :=
  if has_bias then [vector_type.data, vector_type.weight, vector_type.bias]
  else [vector_type.data, vector_type.weight]

/-- Modelled from the spec: the role tag of a registered parameter
("a named, typed tensor with a role tag — weight ... or bias"). -/
inductive parameter_type
  | weight
  | bias
deriving DecidableEq

/-- Decidable equality for `Except`, used to evaluate concrete witnesses. -/
instance {ε α : Type} [DecidableEq ε] [DecidableEq α] :
    DecidableEq (Except ε α) := fun a b =>
  match a, b with
  | Except.error e, Except.error f =>
      if h : e = f then isTrue (by rw [h])
      else isFalse (fun c => by injection c with h2; exact h h2)
  | Except.ok u, Except.ok v =>
      if h : u = v then isTrue (by rw [h])
      else isFalse (fun c => by injection c with h2; exact h h2)
  | Except.error _, Except.ok _ => isFalse (fun c => Except.noConfusion c)
  | Except.ok _, Except.error _ => isFalse (fun c => Except.noConfusion c)

/-- A single numeric row (`vec_t`); scalars modelled as `Int` (exact arithmetic). -/
abbrev vec_t := List Int

/-- A batch of rows (`tensor_t`): one entry per sample. -/
abbrev tensor_t := List vec_t

/-- Modelled from the spec: a registered parameter — a typed tensor with a
four-dimensional shape, a role tag and a trainable mark, allocated once at
construction from the descriptor ("allocated once at construction from the
descriptor; ... never resized").  `data` holds the last two shape dimensions
as a matrix of `dim0*dim1*dim2` rows of length `dim3`, zero-initialised (the
initialisation policy itself is external). -/
structure Parameter where
  dim0 : Nat
  dim1 : Nat
  dim2 : Nat
  dim3 : Nat
  ptype : parameter_type
  trainable : Bool
  data : tensor_t
deriving DecidableEq

/-- Modelled from the spec: the generic `layer` base contract supplying the
input/output order, parameter registration (`add_parameter`), the parallelism
flag and the device/engine binding ("A generic Layer base contract supplying:
device/engine binding, default backend selection policy, parameter
registration, and per-call access to the currently registered parameter
list"). -/
structure layer where
  in_order : List vector_type
  out_order : List vector_type
  parameters_ : List Parameter
  parallelize_ : Bool
  backend_type_ : backend_t
deriving DecidableEq

/-- Modelled from the spec: the `layer` base constructor records the
input/output order; no parameters are registered yet, the parallelism flag
defaults to on, and the backend is the default engine until
`set_backend_type` runs. -/
def layer.construct (in_order out_order : List vector_type) : layer :=
  ⟨in_order, out_order, [], true, core.default_engine⟩

/-- Modelled from the spec: `layer::add_parameter(d0, d1, d2, d3, type,
trainable)` registers one more parameter, allocated from the given shape and
zero-filled. -/
def layer.add_parameter (l : layer) (d0 d1 d2 d3 : Nat)
    (t : parameter_type) (tr : Bool) : layer :=
  { l with parameters_ :=
      l.parameters_ ++
        [⟨d0, d1, d2, d3, t, tr,
          List.replicate (d0 * d1 * d2) (List.replicate d3 (0 : Int))⟩] }

/-- Modelled from the spec: `layer::set_backend_type` stores the backend
handle on the base. -/
def layer.set_backend_type (l : layer) (bk : backend_t) : layer :=
  { l with backend_type_ := bk }

/-- Modelled from the spec: `layer::parallelize()` reads the stored
parallelism flag. -/
def layer.parallelize (l : layer) : Bool := l.parallelize_

/-- Modelled from the spec: `layer::engine()` reads the stored backend
handle. -/
def layer.engine (l : layer) : backend_t := l.backend_type_

/-- Modelled from the spec: `parameters()` gives per-call access to the
currently registered parameter list. -/
def layer.parameters (l : layer) : List Parameter := l.parameters_

/-- `layer_params` (from the header): common configuration record fields.
The `parallellze` spelling is the header's. -/
structure layer_params where
  parallellze : Bool
  backend_type : backend_t
deriving DecidableEq

/-- `fully_connected_layer_params` (from the header): configuration record
adding the bias flag. -/
structure fully_connected_layer_params extends layer_params where
  bias : Bool
deriving DecidableEq

/-- The layer descriptor `fully_params` written by `set_params`: input size,
output size, bias presence. -/
structure fully_params where
  in_size_ : Nat
  out_size_ : Nat
  has_bias_ : Bool
deriving DecidableEq

/-- Modelled from the spec: `OpKernelContext` is a rebindable aggregate of
buffer references plus three hints (parallelism flag, backend handle,
parameter list); after `set_in_out` and the three hint setters run, every
reference it exposes reflects the current call. -/
structure OpKernelContext where
  in_data : List tensor_t
  out_data : List tensor_t
  out_grad : List tensor_t
  in_grad : List tensor_t
  parallelize : Bool
  engine : Option backend_t
  params : List Parameter
deriving DecidableEq

/-- The default-constructed context: no buffers bound, no hints stamped. -/
def OpKernelContext.empty : OpKernelContext :=
  ⟨[], [], [], [], false, none, []⟩

/-- Modelled from the spec: the forward `set_in_out(in_data, out_data)`
rebinds the input/output buffer references; a forward context exposes no
gradient buffers ("every reference it exposes must reflect the arguments of
the current call, with no leakage from a previous call"). -/
def OpKernelContext.set_in_out (ctx : OpKernelContext)
    (in_data out_data : List tensor_t) : OpKernelContext :=
  { ctx with in_data := in_data, out_data := out_data,
             out_grad := [], in_grad := [] }

/-- Modelled from the spec: the backward `set_in_out(in_data, out_data,
out_grad, in_grad)` rebinds all four buffer references. -/
def OpKernelContext.set_in_out4 (ctx : OpKernelContext)
    (in_data out_data out_grad in_grad : List tensor_t) : OpKernelContext :=
  { ctx with in_data := in_data, out_data := out_data,
             out_grad := out_grad, in_grad := in_grad }

/-- Modelled from the spec: `setParallelize` stamps the parallelism hint. -/
def OpKernelContext.setParallelize (ctx : OpKernelContext) (p : Bool) :
    OpKernelContext :=
  { ctx with parallelize := p }

/-- Modelled from the spec: `setEngine` stamps the backend handle hint. -/
def OpKernelContext.setEngine (ctx : OpKernelContext) (e : backend_t) :
    OpKernelContext :=
  { ctx with engine := some e }

/-- Modelled from the spec: `setParameters` stamps the live parameter
list. -/
def OpKernelContext.setParameters (ctx : OpKernelContext)
    (ps : List Parameter) : OpKernelContext :=
  { ctx with params := ps }

/-- Modelled from the spec: `OpKernelConstruction(device, &params_)` hands the
kernel a read-only view of the descriptor at construction. -/
structure OpKernelConstruction where
  params_view : fully_params
deriving DecidableEq

/-- Modelled from the spec: a kernel is an opaque callable constructed once
from the descriptor; the two concrete kinds this core instantiates are
`FullyConnectedOp` and `FullyConnectedGradOp`, each holding the descriptor
view it was constructed with. -/
inductive OpKernel
  | fullyConnectedOp (p : fully_params)
  | fullyConnectedGradOp (p : fully_params)
deriving DecidableEq

/-- Dot product of two rows. -/
def dot (a b : vec_t) : Int :=
  (List.zipWith (fun x y => x * y) a b).sum

/-- The data of the first registered parameter tagged `weight`, read from the
context's parameter list; an absent weight reads as the empty matrix. -/
def weightData (ps : List Parameter) : tensor_t :=
  ((ps.find? (fun q => decide (q.ptype = parameter_type.weight))).map
    Parameter.data).getD []

/-- The data row of the first registered parameter tagged `bias`; an absent
bias reads as the empty row. -/
def biasData (ps : List Parameter) : vec_t :=
  (((ps.find? (fun q => decide (q.ptype = parameter_type.bias))).map
    Parameter.data).getD []).getD 0 []

/-- One output row of the affine map: entry `j` is the dot product of weight
row `j` with the input row, plus the bias entry when the descriptor enables
bias. -/
def fc_forward_row (p : fully_params) (W : tensor_t) (b : vec_t)
    (x : vec_t) : vec_t :=
  (List.range p.out_size_).map
    (fun j => dot (W.getD j []) x + (if p.has_bias_ then b.getD j 0 else 0))

/-- Modelled from the spec: the forward kernel's `compute(ctx)` writes
`output = input · weightᵗ + bias` into the (single) output tensor, one row
per sample of the batch, reading weight and bias from the context's parameter
list ("which must write output = input · weightᵗ + bias (bias term present
iff configured) for every row (sample) in the batch"). -/
def OpKernel.computeFwd : OpKernel → OpKernelContext → List tensor_t
  | OpKernel.fullyConnectedOp p, ctx =>
      [(ctx.in_data.getD 0 []).map
        (fc_forward_row p (weightData ctx.params) (biasData ctx.params))]
  | OpKernel.fullyConnectedGradOp _, ctx => ctx.out_data

/-- Outer product of a gradient row with an input row. -/
def outerProd (g x : vec_t) : tensor_t :=
  g.map (fun gj => x.map (fun xi => gj * xi))

/-- Pointwise sum of two rows. -/
def addVec (a b : vec_t) : vec_t := List.zipWith (fun u v => u + v) a b

/-- Pointwise sum of two matrices. -/
def addMat (a b : tensor_t) : tensor_t := List.zipWith addVec a b

/-- An all-zero row of length `k`. -/
def zeroVec (k : Nat) : vec_t := List.replicate k (0 : Int)

/-- An all-zero matrix with `r` rows of length `c`. -/
def zeroMat (r c : Nat) : tensor_t := List.replicate r (zeroVec c)

/-- One input-gradient row: `input_grad = output_grad · weight`. -/
def prevDeltaRow (p : fully_params) (W : tensor_t) (g : vec_t) : vec_t :=
  (List.range p.in_size_).map
    (fun i => (List.zipWith (fun gj row => gj * row.getD i 0) g W).sum)

/-- The gradients a backward kernel invocation produces. -/
structure BwdResult where
  in_grad : List tensor_t
  weight_grad : tensor_t
  bias_grad : vec_t
deriving DecidableEq

/-- Modelled from the spec: the backward kernel's `compute(ctx)` writes
`input_grad = output_grad · weight` per row, the weight gradient as the batch
sum of `outer(output_grad_row, input_row)`, and the bias gradient as the
batch sum of the output-gradient rows when bias is enabled. -/
def OpKernel.computeBwd : OpKernel → OpKernelContext → BwdResult
  | OpKernel.fullyConnectedGradOp p, ctx =>
      let W := weightData ctx.params
      let delta := ctx.out_grad.getD 0 []
      let prev_in := ctx.in_data.getD 0 []
      { in_grad := [delta.map (prevDeltaRow p W)],
        weight_grad :=
          (List.zipWith outerProd delta prev_in).foldl addMat
            (zeroMat p.out_size_ p.in_size_),
        bias_grad :=
          if p.has_bias_ then delta.foldl addVec (zeroVec p.out_size_)
          else [] }
  | OpKernel.fullyConnectedOp _, _ => { in_grad := [], weight_grad := [], bias_grad := [] }

/-- The `fully_connected_layer` object: the `layer` base state, the
descriptor `params_`, two per-direction contexts, and the two kernels
selected at construction. -/
structure fully_connected_layer where
  base : layer
  params_ : fully_params
  fwd_ctx_ : OpKernelContext
  bwd_ctx_ : OpKernelContext
  kernel_fwd_ : OpKernel
  kernel_back_ : OpKernel
deriving DecidableEq

/-- `init_backend` (header lines 123-134): for `internal`, `avx` or `nnpack`
it constructs the `FullyConnectedOp` / `FullyConnectedGradOp` pair over the
descriptor; any other backend raises `nn_error` naming the engine. -/
def init_backend (ps : fully_params) (backend_type : backend_t) :
    Except nn_error (OpKernel × OpKernel) :=
  if backend_type = backend_t.internal ∨ backend_type = backend_t.avx ∨
      backend_type = backend_t.nnpack then
    Except.ok (OpKernel.fullyConnectedOp ps, OpKernel.fullyConnectedGradOp ps)
  else
    Except.error (nn_error.mk ("Not supported engine: " ++
      to_string backend_type))

/-- The supported backend set named by `init_backend`'s accepting branch. -/
def supported (bk : backend_t) : Prop :=
  bk = backend_t.internal ∨ bk = backend_t.avx ∨ bk = backend_t.nnpack

instance (bk : backend_t) : Decidable (supported bk) := by
  unfold supported; infer_instance

/-- The primary constructor (header lines 36-49): base built with data-only
input/output order, the weight parameter registered with shape
`(1, 1, out_features, in_features)`, the bias parameter `(1, 1, 1,
out_features)` when `bias` is set, both trainable; then `set_params`,
`init_backend` (which may fail, in which case no object results) and
`set_backend_type`. -/
def fully_connected_layer.construct (in_features out_features : Nat)
    (bias : Bool) (backend_type : backend_t) :
    Except nn_error fully_connected_layer :=
  let base0 := layer.construct [vector_type.data] [vector_type.data]
  let base1 := base0.add_parameter 1 1 out_features in_features
    parameter_type.weight true
  let base2 :=
    if bias then base1.add_parameter 1 1 1 out_features parameter_type.bias
      true
    else base1
  let ps : fully_params := ⟨in_features, out_features, bias⟩
  match init_backend ps backend_type with
  | Except.error e => Except.error e
  | Except.ok kfkb =>
      Except.ok
        { base := base2.set_backend_type backend_type,
          params_ := ps,
          fwd_ctx_ := OpKernelContext.empty,
          bwd_ctx_ := OpKernelContext.empty,
          kernel_fwd_ := kfkb.1,
          kernel_back_ := kfkb.2 }

/-- The configuration-record overload (header lines 56-63): base built with
`std_input_order(params.bias)` input order and data output order, then
`set_params`, `init_backend` and `set_backend_type`.  It registers no
parameters and does not read the record's `parallellze` field. -/
def fully_connected_layer.constructP (in_features out_features : Nat)
    (pr : fully_connected_layer_params) :
    Except nn_error fully_connected_layer :=
  let base0 := layer.construct (std_input_order pr.bias) [vector_type.data]
  let ps : fully_params := ⟨in_features, out_features, pr.bias⟩
  match init_backend ps pr.backend_type with
  | Except.error e => Except.error e
  | Except.ok kfkb =>
      Except.ok
        { base := base0.set_backend_type pr.backend_type,
          params_ := ps,
          fwd_ctx_ := OpKernelContext.empty,
          bwd_ctx_ := OpKernelContext.empty,
          kernel_fwd_ := kfkb.1,
          kernel_back_ := kfkb.2 }

/-- The move constructor (header lines 66-72): the `layer` base state and the
descriptor transfer from `other`; the two contexts are not named in the
member-initialiser list and are therefore default-constructed; finally
`init_backend` re-runs over the moved-in descriptor and `other.engine()`,
replacing the moved kernel handles with freshly constructed kernels. -/
def fully_connected_layer.moveFrom (other : fully_connected_layer) :
    Except nn_error fully_connected_layer :=
  match init_backend other.params_ other.base.engine with
  | Except.error e => Except.error e
  | Except.ok kfkb =>
      Except.ok
        { base := other.base,
          params_ := other.params_,
          fwd_ctx_ := OpKernelContext.empty,
          bwd_ctx_ := OpKernelContext.empty,
          kernel_fwd_ := kfkb.1,
          kernel_back_ := kfkb.2 }

/-- `fan_in_size` (header line 74). -/
def fully_connected_layer.fan_in_size (l : fully_connected_layer) : Nat :=
  l.params_.in_size_

/-- `fan_out_size` (header line 76). -/
def fully_connected_layer.fan_out_size (l : fully_connected_layer) : Nat :=
  l.params_.out_size_

/-- `shape3d(width, height, depth)`. -/
structure shape3d where
  width : Nat
  height : Nat
  depth : Nat
deriving DecidableEq

/-- `in_shape` (header lines 78-80). -/
def fully_connected_layer.in_shape (l : fully_connected_layer) :
    List shape3d :=
  [⟨l.params_.in_size_, 1, 1⟩]

/-- `out_shape` (header lines 82-84). -/
def fully_connected_layer.out_shape (l : fully_connected_layer) :
    List shape3d :=
  [⟨l.params_.out_size_, 1, 1⟩]

/-- `layer_type` (header line 112). -/
def fully_connected_layer.layer_type (_ : fully_connected_layer) : String :=
  "fully-connected"

/-- `forward_propagation` (header lines 86-96): rebind the forward context to
the given buffers, stamp the parallelism flag, backend handle and parameter
list, then invoke the forward kernel.  Returns the node with its mutated
forward context together with the contents the kernel wrote into the output
buffers. -/
def fully_connected_layer.forward_propagation (l : fully_connected_layer)
    (in_data : List tensor_t) (out_data : List tensor_t) :
    fully_connected_layer × List tensor_t :=
  let ctx := (((l.fwd_ctx_.set_in_out in_data out_data).setParallelize
    l.base.parallelize).setEngine l.base.engine).setParameters
    l.base.parameters
  ({ l with fwd_ctx_ := ctx }, l.kernel_fwd_.computeFwd ctx)

/-- `back_propagation` (header lines 98-110): rebind the backward context to
the four buffer lists, stamp the three hints, then invoke the backward
kernel.  Returns the node with its mutated backward context together with
the gradients the kernel wrote. -/
def fully_connected_layer.back_propagation (l : fully_connected_layer)
    (in_data out_data out_grad in_grad : List tensor_t) :
    fully_connected_layer × BwdResult :=
  let ctx := (((l.bwd_ctx_.set_in_out4 in_data out_data out_grad
    in_grad).setParallelize l.base.parallelize).setEngine
    l.base.engine).setParameters l.base.parameters
  ({ l with bwd_ctx_ := ctx }, l.kernel_back_.computeBwd ctx)

/-- A concrete 2-to-2 node with identity weight and bias (3, 4), in the state
the constructor establishes except that an external optimizer has written the
parameter data. -/
def c1Node : fully_connected_layer :=
  { base := ⟨[vector_type.data], [vector_type.data],
      [⟨1, 1, 2, 2, parameter_type.weight, true, [[1, 0], [0, 1]]⟩,
       ⟨1, 1, 1, 2, parameter_type.bias, true, [[3, 4]]⟩],
      true, backend_t.internal⟩,
    params_ := ⟨2, 2, true⟩,
    fwd_ctx_ := OpKernelContext.empty,
    bwd_ctx_ := OpKernelContext.empty,
    kernel_fwd_ := OpKernel.fullyConnectedOp ⟨2, 2, true⟩,
    kernel_back_ := OpKernel.fullyConnectedGradOp ⟨2, 2, true⟩ }

/-- C1: a `Forward` call on a node whose forward kernel is the
`FullyConnectedOp` selected at construction over the node's descriptor (as
every constructed node has) rebinds the forward context to the given buffers,
stamps the parallelism flag, backend handle and live parameter list, and the
kernel writes, for every row of the batch, `output = input · weightᵗ + bias`
with the bias term present iff the descriptor enables bias. -/
theorem forward_propagation_computes_affine_map (l : fully_connected_layer)
    (in_data out_data : List tensor_t)
    (h : l.kernel_fwd_ = OpKernel.fullyConnectedOp l.params_) :
    (l.forward_propagation in_data out_data).1.fwd_ctx_ =
      { in_data := in_data, out_data := out_data, out_grad := [],
        in_grad := [], parallelize := l.base.parallelize_,
        engine := some l.base.backend_type_,
        params := l.base.parameters_ } ∧
    (l.forward_propagation in_data out_data).2 =
      [(in_data.getD 0 []).map
        (fc_forward_row l.params_ (weightData l.base.parameters_)
          (biasData l.base.parameters_))] := by
  constructor
  · rfl
  · simp only [fully_connected_layer.forward_propagation, h,
      OpKernel.computeFwd, OpKernelContext.set_in_out,
      OpKernelContext.setParallelize, OpKernelContext.setEngine,
      OpKernelContext.setParameters, layer.parameters]

/-- Witness for C1 at a concrete node and batch: the hypothesis holds for
`c1Node` and the forward pass on input row (5, 6) writes (8, 10). -/
theorem forward_propagation_computes_affine_map_witness :
    c1Node.kernel_fwd_ = OpKernel.fullyConnectedOp c1Node.params_ ∧
    ((c1Node.forward_propagation [[[5, 6]]] [[[0, 0]]]).1.fwd_ctx_ =
      { in_data := [[[5, 6]]], out_data := [[[0, 0]]], out_grad := [],
        in_grad := [], parallelize := c1Node.base.parallelize_,
        engine := some c1Node.base.backend_type_,
        params := c1Node.base.parameters_ } ∧
     (c1Node.forward_propagation [[[5, 6]]] [[[0, 0]]]).2 =
      [(([[[5, 6]]] : List tensor_t).getD 0 []).map
        (fc_forward_row c1Node.params_ (weightData c1Node.base.parameters_)
          (biasData c1Node.base.parameters_))]) ∧
    (c1Node.forward_propagation [[[5, 6]]] [[[0, 0]]]).2 = [[[8, 10]]] := by
  refine ⟨rfl, forward_propagation_computes_affine_map c1Node
    [[[5, 6]]] [[[0, 0]]] rfl, ?_⟩
  rfl

/-- C2: for every backend outside the supported set, both constructors fail
with the error naming the offending backend, and no node object (hence no
parameter allocation) results. -/
theorem construct_unsupported_backend_fails (n m : Nat) (b : Bool)
    (bk : backend_t) (pr : fully_connected_layer_params)
    (h : ¬ supported bk) (hpr : pr.backend_type = bk) :
    fully_connected_layer.construct n m b bk =
      Except.error (nn_error.mk ("Not supported engine: " ++ to_string bk)) ∧
    fully_connected_layer.constructP n m pr =
      Except.error (nn_error.mk ("Not supported engine: " ++ to_string bk)) := by
  unfold supported at h
  constructor
  · simp [fully_connected_layer.construct, init_backend, if_neg h]
  · simp [fully_connected_layer.constructP, init_backend, hpr, if_neg h]

/-- Witness for C2 at `opencl`: both constructors reject it. -/
theorem construct_unsupported_backend_fails_witness :
    ¬ supported backend_t.opencl ∧
    (⟨⟨true, backend_t.opencl⟩, true⟩ :
      fully_connected_layer_params).backend_type = backend_t.opencl ∧
    (fully_connected_layer.construct 1 1 true backend_t.opencl =
      Except.error (nn_error.mk ("Not supported engine: " ++
        to_string backend_t.opencl)) ∧
     fully_connected_layer.constructP 1 1 ⟨⟨true, backend_t.opencl⟩, true⟩ =
      Except.error (nn_error.mk ("Not supported engine: " ++
        to_string backend_t.opencl))) :=
  ⟨by decide, rfl,
   construct_unsupported_backend_fails 1 1 true backend_t.opencl
     ⟨⟨true, backend_t.opencl⟩, true⟩ (by decide) rfl⟩

/-- C4: for positive sizes and any bias flag, a node built by the primary
constructor over a supported backend reports `fan_in_size = in_size`,
`fan_out_size = out_size`, singleton input/output shapes `(size, 1, 1)`, and
registers 2 parameters when bias is on, else 1. -/
theorem construct_accessor_contract (n m : Nat) (b : Bool) (bk : backend_t)
    (hn : 0 < n) (hm : 0 < m) (hbk : supported bk) :
    (fully_connected_layer.construct n m b bk).map
      (fun l => (l.fan_in_size, l.fan_out_size, l.in_shape, l.out_shape,
        l.base.parameters_.length)) =
    Except.ok (n, m, [⟨n, 1, 1⟩], [⟨m, 1, 1⟩], if b then 2 else 1) := by
  rcases hbk with rfl | rfl | rfl <;> cases b <;> rfl

/-- Witness for C4 at `in_size = 2`, `out_size = 3`, bias on, backend
`internal`. -/
theorem construct_accessor_contract_witness :
    0 < 2 ∧ 0 < 3 ∧ supported backend_t.internal ∧
    (fully_connected_layer.construct 2 3 true backend_t.internal).map
      (fun l => (l.fan_in_size, l.fan_out_size, l.in_shape, l.out_shape,
        l.base.parameters_.length)) =
    Except.ok (2, 3, [⟨2, 1, 1⟩], [⟨3, 1, 1⟩], if true then 2 else 1) :=
  ⟨by decide, by decide, Or.inl rfl,
   construct_accessor_contract 2 3 true backend_t.internal (by decide)
     (by decide) (Or.inl rfl)⟩

/-- C5: every successful primary construction registers the weight parameter
with trailing shape `out_size × in_size` and, exactly when bias is enabled, a
bias parameter with trailing extent `out_size`; both are trainable, and the
parameter list is exactly weight-then-bias (two entries) with bias, else just
the weight (one entry). -/
theorem construct_parameter_shapes (n m : Nat) (b : Bool) (bk : backend_t)
    (hbk : supported bk) :
    (fully_connected_layer.construct n m b bk).map
      (fun l => l.base.parameters_.map
        (fun q => (q.ptype, q.dim0, q.dim1, q.dim2, q.dim3, q.trainable))) =
    Except.ok (if b then
      [(parameter_type.weight, 1, 1, m, n, true),
       (parameter_type.bias, 1, 1, 1, m, true)]
    else [(parameter_type.weight, 1, 1, m, n, true)]) := by
  rcases hbk with rfl | rfl | rfl <;> cases b <;> rfl

/-- Witness for C5 at `in_size = 2`, `out_size = 3`, bias on, backend
`avx`. -/
theorem construct_parameter_shapes_witness :
    supported backend_t.avx ∧
    (fully_connected_layer.construct 2 3 true backend_t.avx).map
      (fun l => l.base.parameters_.map
        (fun q => (q.ptype, q.dim0, q.dim1, q.dim2, q.dim3, q.trainable))) =
    Except.ok (if true then
      [(parameter_type.weight, 1, 1, 3, 2, true),
       (parameter_type.bias, 1, 1, 1, 3, true)]
    else [(parameter_type.weight, 1, 1, 3, 2, true)]) :=
  ⟨Or.inr (Or.inl rfl),
   construct_parameter_shapes 2 3 true backend_t.avx (Or.inr (Or.inl rfl))⟩

/-- C6: kernel selection is a pure function of the backend: every supported
backend yields the same `FullyConnectedOp` / `FullyConnectedGradOp` pair over
the descriptor (the same pair whichever supported backend is chosen), and
every unsupported backend is rejected with the naming error. -/
theorem init_backend_uniform_kernel_pair (p : fully_params)
    (bk bk' bkBad : backend_t) (h : supported bk) (h' : supported bk')
    (hbad : ¬ supported bkBad) :
    init_backend p bk =
      Except.ok (OpKernel.fullyConnectedOp p,
        OpKernel.fullyConnectedGradOp p) ∧
    init_backend p bk = init_backend p bk' ∧
    init_backend p bkBad =
      Except.error (nn_error.mk ("Not supported engine: " ++
        to_string bkBad)) := by
  refine ⟨?_, ?_, ?_⟩
  · rcases h with rfl | rfl | rfl <;> rfl
  · rcases h with rfl | rfl | rfl <;> rcases h' with rfl | rfl | rfl <;> rfl
  · unfold supported at hbad
    unfold init_backend
    rw [if_neg hbad]

/-- Witness for C6 at `internal`, `nnpack` and the rejected `libdnn`. -/
theorem init_backend_uniform_kernel_pair_witness :
    supported backend_t.internal ∧ supported backend_t.nnpack ∧
    ¬ supported backend_t.libdnn ∧
    (init_backend ⟨2, 3, true⟩ backend_t.internal =
      Except.ok (OpKernel.fullyConnectedOp ⟨2, 3, true⟩,
        OpKernel.fullyConnectedGradOp ⟨2, 3, true⟩) ∧
     init_backend ⟨2, 3, true⟩ backend_t.internal =
      init_backend ⟨2, 3, true⟩ backend_t.nnpack ∧
     init_backend ⟨2, 3, true⟩ backend_t.libdnn =
      Except.error (nn_error.mk ("Not supported engine: " ++
        to_string backend_t.libdnn))) :=
  ⟨Or.inl rfl, Or.inr (Or.inr rfl), by decide,
   init_backend_uniform_kernel_pair ⟨2, 3, true⟩ backend_t.internal
     backend_t.nnpack backend_t.libdnn (Or.inl rfl) (Or.inr (Or.inr rfl))
     (by decide)⟩

/-- C7: on every Forward and every Backward call the corresponding execution
context at kernel-invocation time is exactly the record built from the
current call's buffers and the node's current hints — whatever the context
held before the call, so no stale reference from a previous call survives. -/
theorem contexts_rebound_every_call (l : fully_connected_layer)
    (in_data out_data out_grad in_grad : List tensor_t) :
    (l.forward_propagation in_data out_data).1.fwd_ctx_ =
      { in_data := in_data, out_data := out_data, out_grad := [],
        in_grad := [], parallelize := l.base.parallelize_,
        engine := some l.base.backend_type_,
        params := l.base.parameters_ } ∧
    (l.back_propagation in_data out_data out_grad in_grad).1.bwd_ctx_ =
      { in_data := in_data, out_data := out_data, out_grad := out_grad,
        in_grad := in_grad, parallelize := l.base.parallelize_,
        engine := some l.base.backend_type_,
        params := l.base.parameters_ } :=
  ⟨rfl, rfl⟩

/-- C10: a Forward call leaves the descriptor, both kernels and the backward
context unchanged, and a Backward call leaves the descriptor, both kernels
and the forward context unchanged — each direction mutates only its own
context on the node. -/
theorem forward_backward_frame (l : fully_connected_layer)
    (in_data out_data out_grad in_grad : List tensor_t) :
    ((l.forward_propagation in_data out_data).1.params_ = l.params_ ∧
     (l.forward_propagation in_data out_data).1.kernel_fwd_ = l.kernel_fwd_ ∧
     (l.forward_propagation in_data out_data).1.kernel_back_ =
       l.kernel_back_ ∧
     (l.forward_propagation in_data out_data).1.bwd_ctx_ = l.bwd_ctx_) ∧
    ((l.back_propagation in_data out_data out_grad in_grad).1.params_ =
       l.params_ ∧
     (l.back_propagation in_data out_data out_grad in_grad).1.kernel_fwd_ =
       l.kernel_fwd_ ∧
     (l.back_propagation in_data out_data out_grad in_grad).1.kernel_back_ =
       l.kernel_back_ ∧
     (l.back_propagation in_data out_data out_grad in_grad).1.fwd_ctx_ =
       l.fwd_ctx_) :=
  ⟨⟨rfl, rfl, rfl, rfl⟩, ⟨rfl, rfl, rfl, rfl⟩⟩

/-- C3 counterexample: the primary constructor `(2, 3, bias = true,
internal)` registers two parameters, while the configuration-record overload
with the corresponding record registers none — the two constructors do not
allocate the same parameters. -/
theorem constructP_differs_from_primary :
    (fully_connected_layer.construct 2 3 true backend_t.internal).map
      (fun l => l.base.parameters_.length) = Except.ok 2 ∧
    (fully_connected_layer.constructP 2 3
      ⟨⟨true, backend_t.internal⟩, true⟩).map
      (fun l => l.base.parameters_.length) = Except.ok 0 :=
  ⟨rfl, rfl⟩

/-- C3 amended: when both constructors succeed on corresponding arguments,
the record overload produces the same descriptor, the same kernel pair and
the same stored backend as the primary constructor, but it registers no
parameters and builds the base with `std_input_order(bias)` as input order;
the record's `parallellze` field is never read, so changing it does not
change the result. -/
theorem constructP_partial_equivalence (n m : Nat)
    (pr : fully_connected_layer_params) (x : Bool)
    (l l' : fully_connected_layer)
    (h : fully_connected_layer.construct n m pr.bias pr.backend_type =
      Except.ok l)
    (h' : fully_connected_layer.constructP n m pr = Except.ok l') :
    l'.params_ = l.params_ ∧
    l'.kernel_fwd_ = l.kernel_fwd_ ∧
    l'.kernel_back_ = l.kernel_back_ ∧
    l'.base.backend_type_ = l.base.backend_type_ ∧
    l'.base.parameters_ = [] ∧
    l'.base.in_order = std_input_order pr.bias ∧
    fully_connected_layer.constructP n m { pr with parallellze := x } =
      fully_connected_layer.constructP n m pr := by
  rcases pr with ⟨⟨pl, pbk⟩, pb⟩
  simp only [fully_connected_layer.construct] at h
  simp only [fully_connected_layer.constructP] at h'
  split at h
  · exact Except.noConfusion h
  next kfkb heq =>
    injection h with h
    subst h
    split at h'
    · exact Except.noConfusion h'
    next kfkb' heq' =>
      injection h' with h'
      subst h'
      rw [heq] at heq'
      injection heq' with heq'
      subst heq'
      exact ⟨rfl, rfl, rfl, rfl, rfl, rfl, rfl⟩

/-- The record used by the C3 witness. -/
def c3Pr : fully_connected_layer_params := ⟨⟨true, backend_t.internal⟩, true⟩

/-- The node the primary constructor yields on `(2, 3, true, internal)`. -/
def c3NodeA : fully_connected_layer :=
  { base := ⟨[vector_type.data], [vector_type.data],
      [⟨1, 1, 3, 2, parameter_type.weight, true,
        List.replicate 3 (List.replicate 2 (0 : Int))⟩,
       ⟨1, 1, 1, 3, parameter_type.bias, true,
        List.replicate 1 (List.replicate 3 (0 : Int))⟩],
      true, backend_t.internal⟩,
    params_ := ⟨2, 3, true⟩,
    fwd_ctx_ := OpKernelContext.empty,
    bwd_ctx_ := OpKernelContext.empty,
    kernel_fwd_ := OpKernel.fullyConnectedOp ⟨2, 3, true⟩,
    kernel_back_ := OpKernel.fullyConnectedGradOp ⟨2, 3, true⟩ }

/-- The node the record overload yields on `(2, 3, c3Pr)`. -/
def c3NodeB : fully_connected_layer :=
  { base := ⟨[vector_type.data, vector_type.weight, vector_type.bias],
      [vector_type.data], [], true, backend_t.internal⟩,
    params_ := ⟨2, 3, true⟩,
    fwd_ctx_ := OpKernelContext.empty,
    bwd_ctx_ := OpKernelContext.empty,
    kernel_fwd_ := OpKernel.fullyConnectedOp ⟨2, 3, true⟩,
    kernel_back_ := OpKernel.fullyConnectedGradOp ⟨2, 3, true⟩ }

/-- Witness for the amended C3 at `(2, 3)` and the record `c3Pr`. -/
theorem constructP_partial_equivalence_witness :
    (fully_connected_layer.construct 2 3 c3Pr.bias c3Pr.backend_type =
      Except.ok c3NodeA ∧
     fully_connected_layer.constructP 2 3 c3Pr = Except.ok c3NodeB) ∧
    (c3NodeB.params_ = c3NodeA.params_ ∧
     c3NodeB.kernel_fwd_ = c3NodeA.kernel_fwd_ ∧
     c3NodeB.kernel_back_ = c3NodeA.kernel_back_ ∧
     c3NodeB.base.backend_type_ = c3NodeA.base.backend_type_ ∧
     c3NodeB.base.parameters_ = [] ∧
     c3NodeB.base.in_order = std_input_order c3Pr.bias ∧
     fully_connected_layer.constructP 2 3 { c3Pr with parallellze := false } =
       fully_connected_layer.constructP 2 3 c3Pr) :=
  ⟨⟨by decide, by decide⟩,
   constructP_partial_equivalence 2 3 c3Pr false c3NodeA c3NodeB (by decide)
     (by decide)⟩

/-- A reachable node state used by the C8 theorems: the node the primary
constructor yields on `(1, 1, true, internal)` after one forward call on the
batch `[[1]]` with output buffer `[[0]]` — its forward context is bound. -/
def c8Src : fully_connected_layer :=
  { base := ⟨[vector_type.data], [vector_type.data],
      [⟨1, 1, 1, 1, parameter_type.weight, true, [[0]]⟩,
       ⟨1, 1, 1, 1, parameter_type.bias, true, [[0]]⟩],
      true, backend_t.internal⟩,
    params_ := ⟨1, 1, true⟩,
    fwd_ctx_ := ⟨[[[1]]], [[[0]]], [], [], true, some backend_t.internal,
      [⟨1, 1, 1, 1, parameter_type.weight, true, [[0]]⟩,
       ⟨1, 1, 1, 1, parameter_type.bias, true, [[0]]⟩]⟩,
    bwd_ctx_ := OpKernelContext.empty,
    kernel_fwd_ := OpKernel.fullyConnectedOp ⟨1, 1, true⟩,
    kernel_back_ := OpKernel.fullyConnectedGradOp ⟨1, 1, true⟩ }

/-- C8 counterexample: `c8Src` is reachable (constructed, then one forward
call), its forward context is not the default-constructed one, yet the
move-constructed node's forward context is the default-constructed context —
move-construction does not transfer the contexts. -/
theorem move_does_not_transfer_contexts :
    (fully_connected_layer.construct 1 1 true backend_t.internal).map
      (fun l0 => (l0.forward_propagation [[[1]]] [[[0]]]).1) =
      Except.ok c8Src ∧
    c8Src.fwd_ctx_ ≠ OpKernelContext.empty ∧
    (fully_connected_layer.moveFrom c8Src).map (fun l => l.fwd_ctx_) =
      Except.ok OpKernelContext.empty :=
  ⟨by decide, by decide, by decide⟩

/-- C8 amended: move-construction transfers the base state (parameters
included) and the descriptor by ownership transfer, default-initialises
fresh forward/backward contexts (the source's contexts are not transferred),
and re-runs backend kernel selection against the moved-in descriptor and
backend handle, so the moved-to node's kernels are freshly constructed. -/
theorem move_reselects_kernels (other : fully_connected_layer)
    (h : supported other.base.backend_type_) :
    fully_connected_layer.moveFrom other =
      Except.ok
        { base := other.base, params_ := other.params_,
          fwd_ctx_ := OpKernelContext.empty,
          bwd_ctx_ := OpKernelContext.empty,
          kernel_fwd_ := OpKernel.fullyConnectedOp other.params_,
          kernel_back_ := OpKernel.fullyConnectedGradOp other.params_ } := by
  unfold fully_connected_layer.moveFrom layer.engine
  rcases h with h | h | h <;> rw [h] <;> rfl

/-- Witness for the amended C8 at the reachable node `c8Src`. -/
theorem move_reselects_kernels_witness :
    supported c8Src.base.backend_type_ ∧
    fully_connected_layer.moveFrom c8Src =
      Except.ok
        { base := c8Src.base, params_ := c8Src.params_,
          fwd_ctx_ := OpKernelContext.empty,
          bwd_ctx_ := OpKernelContext.empty,
          kernel_fwd_ := OpKernel.fullyConnectedOp c8Src.params_,
          kernel_back_ := OpKernel.fullyConnectedGradOp c8Src.params_ } :=
  ⟨Or.inl rfl, move_reselects_kernels c8Src (Or.inl rfl)⟩

/-- C9 counterexample: construction does not establish positivity — the
constructor accepts `in_size = 0` and yields a node whose descriptor violates
`in_size > 0`. -/
theorem construct_accepts_zero_sizes :
    (fully_connected_layer.construct 0 5 true backend_t.internal).map
      (fun l => (l.fan_in_size, l.fan_out_size)) = Except.ok (0, 5) := by
  decide

/-- C9 amended: the descriptor's three fields are immutable after
construction — construction stores exactly the given `in_size`, `out_size`
and `bias`, Forward and Backward leave the descriptor unchanged, and
move-construction transfers it unchanged; positivity, however, is not
validated, so `in_size > 0 ∧ out_size > 0` holds exactly when the
constructor's arguments are positive. -/
theorem descriptor_immutable (n m : Nat) (b : Bool) (bk : backend_t)
    (l l' : fully_connected_layer)
    (in_data out_data out_grad in_grad : List tensor_t)
    (h : fully_connected_layer.construct n m b bk = Except.ok l)
    (h' : fully_connected_layer.moveFrom l = Except.ok l') :
    l.params_ = ⟨n, m, b⟩ ∧
    (l.forward_propagation in_data out_data).1.params_ = l.params_ ∧
    (l.back_propagation in_data out_data out_grad in_grad).1.params_ =
      l.params_ ∧
    l'.params_ = l.params_ := by
  refine ⟨?_, rfl, rfl, ?_⟩
  · simp only [fully_connected_layer.construct] at h
    split at h
    · exact Except.noConfusion h
    · injection h with h
      subst h
      rfl
  · simp only [fully_connected_layer.moveFrom] at h'
    split at h'
    · exact Except.noConfusion h'
    · injection h' with h'
      subst h'
      rfl

/-- The node the primary constructor yields on `(2, 2, false, internal)`,
used by the C9 witness. -/
def c9Node : fully_connected_layer :=
  { base := ⟨[vector_type.data], [vector_type.data],
      [⟨1, 1, 2, 2, parameter_type.weight, true,
        List.replicate 2 (List.replicate 2 (0 : Int))⟩],
      true, backend_t.internal⟩,
    params_ := ⟨2, 2, false⟩,
    fwd_ctx_ := OpKernelContext.empty,
    bwd_ctx_ := OpKernelContext.empty,
    kernel_fwd_ := OpKernel.fullyConnectedOp ⟨2, 2, false⟩,
    kernel_back_ := OpKernel.fullyConnectedGradOp ⟨2, 2, false⟩ }

/-- Witness for the amended C9 at `c9Node` (whose move-construction yields a
node equal to itself, its contexts being still default). -/
theorem descriptor_immutable_witness :
    (fully_connected_layer.construct 2 2 false backend_t.internal =
      Except.ok c9Node ∧
     fully_connected_layer.moveFrom c9Node = Except.ok c9Node) ∧
    (c9Node.params_ = ⟨2, 2, false⟩ ∧
     (c9Node.forward_propagation [[[7, 8]]] [[[0, 0]]]).1.params_ =
       c9Node.params_ ∧
     (c9Node.back_propagation [[[7, 8]]] [[[0, 0]]] [[[1, 0]]]
       [[[0, 0]]]).1.params_ = c9Node.params_ ∧
     c9Node.params_ = c9Node.params_) :=
  ⟨⟨by decide, by decide⟩,
   descriptor_immutable 2 2 false backend_t.internal c9Node c9Node
     [[[7, 8]]] [[[0, 0]]] [[[1, 0]]] [[[0, 0]]] (by decide) (by decide)⟩

end TinyDnn
